import Mathlib

/-!
# Verification of the duktape-rs bridge layer

A shallow embedding of the value-marshalling and callback-dispatch layer of
`duktape-rs` (src/contexts/context.rs, src/contexts/mod.rs, src/macros.rs),
together with proofs of the specified properties.

The duktape VM itself is external to the crate; its stack-level API
(`duk_push_*`, `duk_pop`, `duk_get_top`, `duk_eval_raw`, `duk_pcall`, ...)
is embedded as operations on an explicit evaluation stack of typed slots,
following the documented stack effect of each primitive.  The crate modules
`types`, `errors` and `io` and the external `cesu8` crate are not part of
the source tree; the definitions taken from them are modelled from the spec
and marked as such in their doc comments.
-/

namespace Duktape

/-- Modelled from the spec: the `Value` tagged union of the `types` module
(absent from src/): `Undefined`, `Null`, `Bool(bool)`, `Number(f64)`,
`String(text)`.  The `f64` payload is represented by Lean's `Float`, which
is carried through the VM unchanged. -/
inductive Value where
  | Undefined : Value
  | Null : Value
  | Bool : Bool → Value
  | Number : Float → Value
  | String : String → Value
  deriving Repr

/-- Modelled from the spec: the `DuktapeError` type of the `errors` module
(absent from src/).  §7 gives the taxonomy: an error carries an optional
human-readable message and a numeric code; `from_str` builds an error from
a message, `from_code` a code-only error.  `err_code` returns the numeric
code (the generic code 100, duktape's `DUK_ERR_ERROR`, when the error was
built from a message only). -/
structure DuktapeError where
  message : Option String
  code : Nat
  deriving Repr, DecidableEq

namespace DuktapeError

/-- Modelled from the spec: `DuktapeError::from_str` — an error carrying a
message, with the generic error code. -/
def from_str (m : String) : DuktapeError := ⟨some m, 100⟩

/-- Modelled from the spec: `DuktapeError::from_code` — a code-only error. -/
def from_code (c : Nat) : DuktapeError := ⟨none, c⟩

/-- Modelled from the spec: `err_message` accessor. -/
def err_message (e : DuktapeError) : Option String := e.message

/-- Modelled from the spec: `err_code` accessor. -/
def err_code (e : DuktapeError) : Nat := e.code

end DuktapeError

/-- `DuktapeResult<T>` from the `errors` module: `Result<T, DuktapeError>`. -/
abbrev DuktapeResult (α : Type) := Except DuktapeError α

/-! ## The CESU-8 string codec

Modelled from the spec: §1 and §4.2 treat the string codec (the external
`cesu8` crate) as an interface contract — bidirectional conversion between
the host's UTF-8 strings and the VM's internal CESU-8 byte format, a
superset of UTF-8 in which supplementary-plane characters are written as a
surrogate pair of 3-byte sequences.  Bytes are `Nat`s below 256. -/

namespace Cesu8

/-- Encode one code unit (a scalar value below `0x10000`, surrogate halves
included) as its 1–3 byte UTF-8-style sequence. -/
def encodeUnit (v : Nat) : List Nat :=
  if v < 0x80 then [v]
  else if v < 0x800 then [0xC0 + v / 64, 0x80 + v % 64]
  else [0xE0 + v / 4096, 0x80 + v / 64 % 64, 0x80 + v % 64]

/-- The CESU-8 code units of one character: the scalar itself below
`0x10000`, and the surrogate pair for supplementary-plane characters. -/
def charUnits (c : Char) : List Nat :=
  let v := c.toNat
  if v < 0x10000 then [v]
  else [0xD800 + (v - 0x10000) / 1024, 0xDC00 + (v - 0x10000) % 1024]

/-- Modelled from the spec: `cesu8::to_cesu8` — the CESU-8 byte encoding of
a host string. -/
def to_cesu8 (s : String) : List Nat :=
  (s.data.flatMap charUnits).flatMap encodeUnit

/-- Decode the first CESU-8 code unit of a byte stream: the unit's scalar
value and the remaining bytes, or `none` on malformed data (bad lead bytes,
bad continuation bytes, overlong encodings, 4-byte sequences). -/
def decodeOne : List Nat → Option (Nat × List Nat)
  | [] => none
  | b0 :: rest =>
    if b0 < 0x80 then some (b0, rest)
    else if b0 < 0xC2 then none
    else if b0 < 0xE0 then
      match rest with
      | b1 :: rest1 =>
        if 0x80 ≤ b1 ∧ b1 < 0xC0 then
          some ((b0 - 0xC0) * 64 + (b1 - 0x80), rest1)
        else none
      | [] => none
    else if b0 < 0xF0 then
      match rest with
      | b1 :: b2 :: rest2 =>
        if 0x80 ≤ b1 ∧ b1 < 0xC0 ∧ 0x80 ≤ b2 ∧ b2 < 0xC0 ∧
            0x800 ≤ (b0 - 0xE0) * 4096 + (b1 - 0x80) * 64 + (b2 - 0x80) then
          some ((b0 - 0xE0) * 4096 + (b1 - 0x80) * 64 + (b2 - 0x80), rest2)
        else none
      | _ => none
    else none

set_option maxRecDepth 4000 in
theorem decodeOne_length (bs : List Nat) (v : Nat) (rest : List Nat)
    (h : decodeOne bs = some (v, rest)) : rest.length < bs.length := by
  match bs with
  | [] => simp [decodeOne] at h
  | b0 :: bs =>
    simp only [decodeOne] at h
    split at h
    · cases h
      simp
    · split at h
      · exact absurd h (by simp)
      · split at h
        · split at h
          · split at h
            · cases h
              simp only [List.length_cons]
              omega
            · exact absurd h (by simp)
          · exact absurd h (by simp)
        · split at h
          · split at h
            · split at h
              · cases h
                simp only [List.length_cons]
                omega
              · exact absurd h (by simp)
            · exact absurd h (by simp)
          · exact absurd h (by simp)

/-- Decode a CESU-8 byte stream into its code units, rejecting malformed
sequences. -/
def decodeUnits : List Nat → Option (List Nat)
  | [] => some []
  | b0 :: bs =>
    match h : decodeOne (b0 :: bs) with
    | none => none
    | some (v, rest) => (decodeUnits rest).map (v :: ·)
termination_by l => l.length
decreasing_by
  simp only [List.length_cons]
  have := decodeOne_length _ _ _ h
  simpa using this

/-- Combine the first decoded code unit(s) into a character, pairing a high
surrogate with the following low surrogate and rejecting lone surrogates. -/
def combineOne : List Nat → Option (Char × List Nat)
  | [] => none
  | v :: rest =>
    if v < 0xD800 then some (Char.ofNat v, rest)
    else if v < 0xDC00 then
      match rest with
      | w :: rest1 =>
        if 0xDC00 ≤ w ∧ w < 0xE000 then
          some (Char.ofNat (0x10000 + (v - 0xD800) * 1024 + (w - 0xDC00)), rest1)
        else none
      | [] => none
    else if v < 0xE000 then none
    else some (Char.ofNat v, rest)

set_option maxRecDepth 4000 in
theorem combineOne_length (us : List Nat) (c : Char) (rest : List Nat)
    (h : combineOne us = some (c, rest)) : rest.length < us.length := by
  match us with
  | [] => simp [combineOne] at h
  | v :: us =>
    simp only [combineOne] at h
    split at h
    · cases h
      simp
    · split at h
      · split at h
        · split at h
          · simp only [Option.some.injEq, Prod.mk.injEq] at h
            obtain ⟨-, h2⟩ := h
            subst h2
            simp only [List.length_cons]
            omega
          · exact absurd h (by simp)
        · exact absurd h (by simp)
      · split at h
        · exact absurd h (by simp)
        · simp only [Option.some.injEq, Prod.mk.injEq] at h
          obtain ⟨-, h2⟩ := h
          subst h2
          simp

/-- Combine decoded code units into characters, pairing surrogates and
rejecting lone surrogates. -/
def combineSurrogates : List Nat → Option (List Char)
  | [] => some []
  | v :: us =>
    match h : combineOne (v :: us) with
    | none => none
    | some (c, rest) => (combineSurrogates rest).map (c :: ·)
termination_by l => l.length
decreasing_by
  simp only [List.length_cons]
  have := combineOne_length _ _ _ h
  simpa using this

/-- Modelled from the spec: `cesu8::from_cesu8` — decode a CESU-8 byte
stream back into a host string, failing on malformed data. -/
def from_cesu8 (bytes : List Nat) : Option String :=
  ((decodeUnits bytes).bind combineSurrogates).map String.mk

/-- Standard UTF-8 bytes of one character (4-byte form for the
supplementary planes), as a Rust `&str` stores it. -/
def encodeUtf8Char (c : Char) : List Nat :=
  if c.toNat < 0x10000 then encodeUnit c.toNat
  else [0xF0 + c.toNat / 262144, 0x80 + c.toNat / 4096 % 64,
        0x80 + c.toNat / 64 % 64, 0x80 + c.toNat % 64]

/-- The UTF-8 bytes of a host string (the bytes `as_ptr`/`len` expose). -/
def utf8Bytes (s : String) : List Nat := s.data.flatMap encodeUtf8Char

end Cesu8

/-! ## The VM evaluation stack

The duktape VM itself is an external component (spec §1, §6): the bridge
sees it only through its C API.  The evaluation stack is embedded as a list
of typed slots, head = top of stack; each API primitive is given the stack
effect its documented contract states (§6), and the opaque parts of
execution (result of evaluating code, of a protected call, of a to-string
coercion) enter as explicit oracle parameters. -/

/-- A typed slot of the VM evaluation stack, as classified by
`duk_get_type` (`DUK_TYPE_*`).  The tags the bridge decodes carry their
payload; the unsupported tags (`object`, `buffer`, `pointer`, `lightfunc`
and the invalid-index tag `nonetag`) carry none, since `Context::get` never
reads them. -/
inductive Slot where
  | undefined : Slot
  | null : Slot
  | boolean : Bool → Slot
  | number : Float → Slot
  | string : List Nat → Slot
  | object : Slot
  | buffer : Slot
  | pointer : Slot
  | lightfunc : Slot
  | nonetag : Slot
  deriving Repr

/-- The five duktape runtime type tags `Context::get` supports
(`DUK_TYPE_UNDEFINED`, `_NULL`, `_BOOLEAN`, `_NUMBER`, `_STRING`). -/
def Slot.supported : Slot → Bool
  | .undefined | .null | .boolean _ | .number _ | .string _ => true
  | _ => false

/-- `duk_get_boolean`: 1 for a true boolean slot, 0 otherwise. -/
def duk_get_boolean : Slot → Nat
  | .boolean true => 1
  | _ => 0

/-- `duk_push_boolean`: duktape stores the truthiness of the pushed int. -/
def duk_push_boolean (i : Nat) : Slot := .boolean (i ≠ 0)

/-- `contexts::from_lstring` (src/contexts/mod.rs:22–31): convert a
duktape-format (CESU-8) byte string into a host `String`, failing with a
`DuktapeError` when the bytes cannot be converted. -/
def from_lstring (bytes : List Nat) : DuktapeResult String :=
  match Cesu8.from_cesu8 bytes with
  | some str => .ok str
  | none => .error (DuktapeError.from_str "can't convert string to UTF-8")

/-- What `Context::get` can do: return its `DuktapeResult`, or hit the
`panic!` arm (a fatal, unwinding condition rather than a value). -/
inductive GetOutcome where
  | value : DuktapeResult Value → GetOutcome
  | fatal : String → GetOutcome

/-- `Context::get` (context.rs:73–91): inspect the runtime type tag of a
stack slot and decode it into a `Value`; unsupported duktape types hit
`panic!("Cannot convert duktape data type")`. -/
def get (slot : Slot) : GetOutcome :=
  match slot with
  | .undefined => .value (.ok .Undefined)
  | .null => .value (.ok .Null)
  | .boolean _ =>
      let val := duk_get_boolean slot
      .value (.ok (.Bool (val ≠ 0)))
  | .number n => .value (.ok (.Number n))
  | .string bytes => .value ((from_lstring bytes).map .String)
  | _ => .fatal "Cannot convert duktape data type"

/-- `Context::push_old` (context.rs:94–107): push a `Value` onto the VM
stack — the slot it creates.  Strings are CESU-8 encoded (`to_cesu8`)
before `duk_push_lstring`. -/
def push_old : Value → Slot
  | .Undefined => .undefined
  | .Null => .null
  | .Bool v => duk_push_boolean (if v then 1 else 0)
  | .Number v => .number v
  | .String v => .string (Cesu8.to_cesu8 v)

/-! ## duktape status and return-code constants (external `duktape_sys` API) -/

/-- `DUK_EXEC_SUCCESS`: the one status value meaning success. -/
def DUK_EXEC_SUCCESS : Int := 0

/-- `DUK_ERR_ERROR`: the generic error code. -/
def DUK_ERR_ERROR : Int := 100

/-- `DUK_ERR_TYPE_ERROR`: the TypeError code. -/
def DUK_ERR_TYPE_ERROR : Int := 105

/-- `DUK_RET_ERROR`: negative return convention for a generic error thrown
on behalf of a native function. -/
def DUK_RET_ERROR : Int := -DUK_ERR_ERROR

/-- `DUK_RET_TYPE_ERROR`: negative return convention for a TypeError. -/
def DUK_RET_TYPE_ERROR : Int := -DUK_ERR_TYPE_ERROR

/-! ## The callback trampoline (`rust_duk_callback`, context.rs:231–304) -/

/-- Outcome of the argument-decoding loop of `rust_duk_callback`
(context.rs:255–265): all arguments decoded, an early
`return DUK_RET_TYPE_ERROR` because some argument failed to decode, or an
unwinding panic from `get` (unsupported type tag). -/
inductive DecodeArgsOutcome where
  | ok : List Value → DecodeArgsOutcome
  | err : DecodeArgsOutcome
  | fatal : String → DecodeArgsOutcome

/-- The argument-decoding loop of `rust_duk_callback` (context.rs:255–265):
decode the slot at each positional index in order; the first `Err` aborts
the dispatch. -/
def decodeArgs : List Slot → DecodeArgsOutcome
  | [] => .ok []
  | s :: rest =>
    match get s with
    | .fatal msg => .fatal msg
    | .value (.error _) => .err
    | .value (.ok v) =>
      match decodeArgs rest with
      | .ok args => .ok (v :: args)
      | o => o

/-- Behavior of one invocation of the registered host callback: return a
`DuktapeResult`, or fail with an uncaught panic. -/
inductive HostBehavior where
  | returns : DuktapeResult Value → HostBehavior
  | panics : String → HostBehavior

/-- How one trampoline dispatch ends. -/
inductive TrampolineOutcome where
  /-- Control returns to the VM: `pushed` slots were pushed and `status` is
  the `duk_ret_t` return value. -/
  | ret : (pushed : List Slot) → (status : Int) → TrampolineOutcome
  /-- A panic unwound out of the trampoline (only possible from the
  argument-decoding loop, which sits outside the fault boundary). -/
  | fatalPanic : String → TrampolineOutcome
  /-- The `abort_on_panic!` fault boundary caught a panic from the host
  callback and aborted the process. -/
  | abort : String → TrampolineOutcome

/-- The result-translation step of `rust_duk_callback` (context.rs:275–303):
`Ok(Undefined)` returns 0 with nothing pushed; any other `Ok(val)` pushes
`push_old val` and returns 1; `Err` with a message returns `DUK_RET_ERROR`;
`Err` without a message returns the negated code. -/
def translate_result (result : DuktapeResult Value) : List Slot × Int :=
  match result with
  | .ok .Undefined => ([], 0)
  | .ok val => ([push_old val], 1)
  | .error err =>
    let code : Int := err.err_code
    match err.err_message with
    | some _ => ([], DUK_RET_ERROR)
    | none => ([], -code)

/-- `rust_duk_callback` (context.rs:231–304) after the function-pointer
recovery (itself stack-height preserving: two pushes, `duk_pop_n 2`):
decode the positional arguments, invoke the recovered host callback inside
the `abort_on_panic!("unexpected panic in code called from JavaScript")`
fault boundary, and translate its result.  `argSlots` are the slots of the
call arguments at indexes `0..arg_count`; `f` gives the host callback's
behavior on the decoded arguments. -/
def rust_duk_callback (argSlots : List Slot)
    (f : List Value → HostBehavior) : TrampolineOutcome :=
  match decodeArgs argSlots with
  | .fatal msg => .fatalPanic msg
  | .err => .ret [] DUK_RET_TYPE_ERROR
  | .ok args =>
    match f args with
    | .panics _ => .abort "unexpected panic in code called from JavaScript"
    | .returns r => .ret (translate_result r).1 (translate_result r).2

/-- Whether a dispatch outcome is a status returned to the VM (as opposed
to an unwind or a process abort). -/
def TrampolineOutcome.isReturnedStatus : TrampolineOutcome → Bool
  | .ret _ _ => true
  | _ => false

/-- A translation outcome carries the message `m` if some pushed slot is
the string encoding of `m` (the only way the bridge could hand a message to
the VM). -/
def outcomeCarries (o : List Slot × Int) (m : String) : Prop :=
  Slot.string (Cesu8.to_cesu8 m) ∈ o.1

/-! ## Context lifecycle (context.rs:26–54, 218–224) -/

/-- `Context` (context.rs:26–29): a heap handle (`Nat` stands in for the
raw pointer) and the ownership flag. -/
structure Context where
  ptr : Nat
  owned : Bool
  deriving Repr, DecidableEq

/-- `Context::new` (context.rs:33–42): `duk_create_heap` either yields a
fresh heap pointer or reports failure with a null pointer (`none`); a null
pointer produces the heap-creation error, otherwise the `Context` owns the
new heap. -/
def Context.new (duk_create_heap : Option Nat) : DuktapeResult Context :=
  match duk_create_heap with
  | none => .error (DuktapeError.from_str "Could not create heap")
  | some ptr => .ok ⟨ptr, true⟩

/-- `Context::from_borrowed_mut_ptr` (context.rs:48–50): wrap an existing
heap pointer without taking ownership. -/
def Context.from_borrowed_mut_ptr (ptr : Nat) : Context := ⟨ptr, false⟩

/-- A call into the VM's heap-lifecycle API, for observing the side effects
of dropping a `Context`. -/
inductive VMCall where
  | destroy_heap : Nat → VMCall
  deriving Repr, DecidableEq

/-- `Drop for Context` (context.rs:218–224): the VM calls performed when a
`Context` is dropped — `duk_destroy_heap` on the wrapped pointer iff the
context owns it, nothing otherwise. -/
def Context.dropCalls (ctx : Context) : List VMCall :=
  if ctx.owned then [.destroy_heap ctx.ptr] else []

/-- `CString::new`: build a NUL-terminated C string from host text; fails
(and the source's `.unwrap()` panics) iff the text contains an interior NUL
byte, which for UTF-8 text means the character U+0000. -/
def cstring_new (s : String) : Option (List Nat) :=
  if s.data.contains (Char.ofNat 0) then none
  else some (Cesu8.utf8Bytes s ++ [0])

/-! ## The public stack-crossing operations (context.rs:142–215)

Each operation is the sequence of VM API calls the source performs, with
the opaque execution results (`duk_eval_raw` / `duk_pcall` status and
resulting slot, `duk_safe_to_lstring` coercion bytes) as oracle parameters.
`none` means the operation did not return — a Rust panic escaped
(`CString::new(..).unwrap()` or the `panic!` in `get`). -/

/-- The VM evaluation stack; the head is the top of the stack. -/
abbrev Stack := List Slot

/-- `duk_get_top`: the stack height. -/
def duk_get_top (stk : Stack) : Nat := stk.length

/-- `duk_pop`: drop the top slot. -/
def duk_pop (stk : Stack) : Stack := stk.tail

/-- External VM contract for `duk_eval_raw` with `DUK_COMPILE_EVAL |
DUK_COMPILE_NOSOURCE | DUK_COMPILE_SAFE` (§6): consume the filename on the
stack top, execute the supplied source, and leave exactly one slot — the
result on success, the error object otherwise — returning a status code.
The opaque execution is the oracle `(status, res)`. -/
def duk_eval_raw (oracle : Int × Slot) (stk : Stack) : Stack × Int :=
  (oracle.2 :: stk.tail, oracle.1)

/-- External VM contract for `duk_pcall` (§6): pop the `nargs` arguments
and the function beneath them, leave exactly one slot — the return value on
success, the error object otherwise — returning a status code.  The opaque
call is the oracle `(status, res)`. -/
def duk_pcall (nargs : Nat) (oracle : Int × Slot) (stk : Stack) :
    Stack × Int :=
  (oracle.2 :: stk.drop (nargs + 1), oracle.1)

/-- `Context::get_result` (context.rs:118–129): on `DUK_EXEC_SUCCESS`
decode the stack top with `get`; otherwise render the error on the stack
top with `duk_safe_to_lstring` (an in-place coercion, height unchanged,
producing the oracle bytes `coerced`) and wrap the text as a
`DuktapeError`.  `none` when `get` panics or the stack is empty (an invalid
index, which `get` also treats as fatal). -/
def get_result (status : Int) (coerced : List Nat) (stk : Stack) :
    Option (Stack × DuktapeResult Value) :=
  if status = DUK_EXEC_SUCCESS then
    match stk with
    | [] => none
    | top :: _ =>
      match get top with
      | .fatal _ => none
      | .value r => some (stk, r)
  else
    match stk with
    | [] => none
    | _ :: rest =>
      match from_lstring coerced with
      | .ok msg => some (.string coerced :: rest,
                         .error (DuktapeError.from_str msg))
      | .error e => some (.string coerced :: rest, .error e)

/-- `Context::pop_result` (context.rs:134–140): `get_result`, then pop the
value or error off the stack. -/
def pop_result (status : Int) (coerced : List Nat) (stk : Stack) :
    Option (Stack × DuktapeResult Value) :=
  (get_result status coerced stk).map (fun p => (duk_pop p.1, p.2))

/-- `Context::eval_from` (context.rs:149–165): push the filename, evaluate
the code via `duk_eval_raw`, and pop the result.  The opaque evaluation is
the oracle `(status, res)`; `coerced` is the error rendering oracle of
`duk_safe_to_lstring`. -/
def eval_from (filename _code : String) (oracle : Int × Slot)
    (coerced : List Nat) (stk : Stack) :
    Option (Stack × DuktapeResult Value) :=
  let stk1 := Slot.string (Cesu8.utf8Bytes filename) :: stk
  let r := duk_eval_raw oracle stk1
  pop_result r.2 coerced r.1

/-- `Context::eval` (context.rs:143–145): `eval_from` with the fixed
filename `<eval>`. -/
def eval (code : String) (oracle : Int × Slot) (coerced : List Nat)
    (stk : Stack) : Option (Stack × DuktapeResult Value) :=
  eval_from "<eval>" code oracle coerced stk

/-- `Context::call` (context.rs:169–189): push the global object, look up
`fn_name` on it (`duk_get_prop_string` pushes the property value, supplied
as the oracle `propVal` — `undefined` when absent), encode each argument
(one slot each, `argSlots` in order), `duk_pcall`, pop the result, and
unconditionally remove the global object.  `none` when
`CString::new(fn_name).unwrap()` panics or `pop_result` does. -/
def call (fn_name : String) (argSlots : List Slot) (propVal : Slot)
    (oracle : Int × Slot) (coerced : List Nat) (stk : Stack) :
    Option (Stack × DuktapeResult Value) :=
  let stk1 := Slot.object :: stk
  match cstring_new fn_name with
  | none => none
  | some _ =>
    let stk2 := propVal :: stk1
    let stk3 := argSlots.reverse ++ stk2
    let r := duk_pcall argSlots.length oracle stk3
    match pop_result r.2 coerced r.1 with
    | none => none
    | some (stk4, result) => some (duk_pop stk4, result)

/-- `Context::register` (context.rs:192–215): push the global object and a
native function object wrapping `rust_duk_callback`, store the callback
pointer (`duk_push_pointer` then `duk_put_prop_string`, which pops it),
store the function under `fn_name` on the global object (popping it), and
pop the global object.  `none` when `CString::new(fn_name).unwrap()`
panics. -/
def register (fn_name : String) (stk : Stack) : Option Stack :=
  let stk1 := Slot.object :: stk
  let stk2 := Slot.object :: stk1
  let stk3 := Slot.pointer :: stk2
  let stk4 := stk3.tail
  match cstring_new fn_name with
  | none => none
  | some _ =>
    let stk5 := stk4.tail
    some stk5.tail

/-! ## Helper lemmas -/

namespace Cesu8

theorem encodeUnit_ne_nil (v : Nat) : encodeUnit v ≠ [] := by
  unfold encodeUnit
  by_cases h1 : v < 0x80
  · simp [h1]
  · by_cases h2 : v < 0x800 <;> simp [h1, h2]

theorem decodeOne_encodeUnit (v : Nat) (hv : v < 0x10000) (bs : List Nat) :
    decodeOne (encodeUnit v ++ bs) = some (v, bs) := by
  unfold encodeUnit
  by_cases h1 : v < 0x80
  · simp [decodeOne, h1]
  · by_cases h2 : v < 0x800
    · have n1 : ¬ 0xC0 + v / 64 < 0x80 := by omega
      have n2 : ¬ 0xC0 + v / 64 < 0xC2 := by omega
      have n3 : 0xC0 + v / 64 < 0xE0 := by omega
      have c1 : 0x80 ≤ 0x80 + v % 64 := by omega
      have c2 : 0x80 + v % 64 < 0xC0 := by omega
      simp [decodeOne, h1, h2, n1, n2, n3, c1, c2]
      omega
    · have n1 : ¬ 0xE0 + v / 4096 < 0x80 := by omega
      have n2 : ¬ 0xE0 + v / 4096 < 0xC2 := by omega
      have n3 : ¬ 0xE0 + v / 4096 < 0xE0 := by omega
      have n4 : 0xE0 + v / 4096 < 0xF0 := by omega
      have c1 : 0x80 ≤ 0x80 + v / 64 % 64 := by omega
      have c2 : 0x80 + v / 64 % 64 < 0xC0 := by omega
      have c3 : 0x80 ≤ 0x80 + v % 64 := by omega
      have c4 : 0x80 + v % 64 < 0xC0 := by omega
      have ov : 0x800 ≤ (0xE0 + v / 4096 - 0xE0) * 4096 +
          (0x80 + v / 64 % 64 - 0x80) * 64 + (0x80 + v % 64 - 0x80) := by omega
      simp [decodeOne, h1, h2, n1, n2, n3, n4, c1, c2, c3, c4, ov]
      omega

theorem decodeUnits_append_encodeUnit (v : Nat) (hv : v < 0x10000)
    (bs : List Nat) :
    decodeUnits (encodeUnit v ++ bs) = (decodeUnits bs).map (v :: ·) := by
  rcases he : encodeUnit v ++ bs with _ | ⟨b0, tl⟩
  · exact absurd (List.append_eq_nil.mp he).1 (encodeUnit_ne_nil v)
  · rw [decodeUnits]
    split
    · rename Duktape.Cesu8.decodeOne _ = none => h
      rw [← he, decodeOne_encodeUnit v hv bs] at h
      exact absurd h (by simp)
    · rename Duktape.Cesu8.decodeOne _ = some _ => h
      rw [← he, decodeOne_encodeUnit v hv bs] at h
      obtain ⟨rfl, rfl⟩ := Prod.mk.injEq .. ▸ Option.some.injEq .. ▸ h
      rfl

theorem decodeUnits_flatMap_encodeUnit (us : List Nat)
    (h : ∀ u ∈ us, u < 0x10000) :
    decodeUnits (us.flatMap encodeUnit) = some us := by
  induction us with
  | nil => simp [decodeUnits]
  | cons u us ih =>
    rw [List.flatMap_cons,
        decodeUnits_append_encodeUnit u (h u (by simp)) (us.flatMap encodeUnit),
        ih (fun x hx => h x (by simp [hx]))]
    rfl

theorem char_valid_nat (c : Char) :
    c.toNat < 0xD800 ∨ (0xDFFF < c.toNat ∧ c.toNat < 0x110000) := by
  have := c.valid
  simpa [UInt32.isValidChar, Nat.isValidChar, Char.toNat] using this

theorem charUnits_ne_nil (c : Char) : charUnits c ≠ [] := by
  unfold charUnits
  by_cases h : c.toNat < 0x10000 <;> simp [h]

theorem charUnits_lt (c : Char) : ∀ u ∈ charUnits c, u < 0x10000 := by
  have hval := char_valid_nat c
  unfold charUnits
  by_cases h : c.toNat < 0x10000 <;> simp [h] <;> omega

theorem combineOne_charUnits (c : Char) (us : List Nat) :
    combineOne (charUnits c ++ us) = some (c, us) := by
  have hval := char_valid_nat c
  simp only [charUnits]
  by_cases h1 : c.toNat < 0x10000
  · simp only [if_pos h1, List.cons_append, List.nil_append]
    by_cases h2 : c.toNat < 0xD800
    · simp [combineOne, h2]
    · have h3 : ¬ c.toNat < 0xDC00 := by omega
      have h4 : ¬ c.toNat < 0xE000 := by omega
      simp [combineOne, h2, h3, h4]
  · simp only [if_neg h1, List.cons_append, List.nil_append]
    have hlt : c.toNat < 0x110000 := by omega
    have hv1 : ¬ 0xD800 + (c.toNat - 0x10000) / 1024 < 0xD800 := by omega
    have hv2 : 0xD800 + (c.toNat - 0x10000) / 1024 < 0xDC00 := by omega
    have hw1 : 0xDC00 ≤ 0xDC00 + (c.toNat - 0x10000) % 1024 := by omega
    have hw2 : 0xDC00 + (c.toNat - 0x10000) % 1024 < 0xE000 := by omega
    simp only [combineOne, if_neg hv1, if_pos hv2]
    simp only [if_pos (And.intro hw1 hw2), Option.some.injEq, Prod.mk.injEq]
    constructor
    · have harith : 0x10000 + (0xD800 + (c.toNat - 0x10000) / 1024 - 0xD800) * 1024 +
          (0xDC00 + (c.toNat - 0x10000) % 1024 - 0xDC00) = c.toNat := by omega
      rw [harith, Char.ofNat_toNat]
    · trivial

theorem combineSurrogates_append_charUnits (c : Char) (us : List Nat) :
    combineSurrogates (charUnits c ++ us) =
      (combineSurrogates us).map (c :: ·) := by
  rcases he : charUnits c ++ us with _ | ⟨u0, tl⟩
  · exact absurd (List.append_eq_nil.mp he).1 (charUnits_ne_nil c)
  · rw [combineSurrogates]
    split
    · rename Duktape.Cesu8.combineOne _ = none => h
      rw [← he, combineOne_charUnits c us] at h
      exact absurd h (by simp)
    · rename Duktape.Cesu8.combineOne _ = some _ => h
      rw [← he, combineOne_charUnits c us] at h
      obtain ⟨rfl, rfl⟩ := Prod.mk.injEq .. ▸ Option.some.injEq .. ▸ h
      rfl

theorem combineSurrogates_flatMap_charUnits (cs : List Char) :
    combineSurrogates (cs.flatMap charUnits) = some cs := by
  induction cs with
  | nil => simp [combineSurrogates]
  | cons c cs ih =>
    rw [List.flatMap_cons, combineSurrogates_append_charUnits c, ih]
    rfl

/-- Valid host text always round-trips exactly through the CESU-8 codec. -/
theorem from_cesu8_to_cesu8 (s : String) : from_cesu8 (to_cesu8 s) = some s := by
  obtain ⟨cs⟩ := s
  have hu : ∀ u ∈ cs.flatMap charUnits, u < 0x10000 := by
    intro u humem
    obtain ⟨c, _, hc⟩ := List.mem_flatMap.mp humem
    exact charUnits_lt c u hc
  unfold from_cesu8 to_cesu8
  rw [show (String.mk cs).data = cs from rfl,
      decodeUnits_flatMap_encodeUnit _ hu, Option.some_bind,
      combineSurrogates_flatMap_charUnits]
  rfl

end Cesu8

/-! ## Stack-height helper lemmas -/

theorem get_result_length (status : Int) (coerced : List Nat) (stk stk' : Stack)
    (r : DuktapeResult Value)
    (h : get_result status coerced stk = some (stk', r)) :
    stk'.length = stk.length := by
  unfold get_result at h
  split at h
  · split at h
    · exact absurd h (by simp)
    · split at h
      · exact absurd h (by simp)
      · cases h
        rfl
  · split at h
    · exact absurd h (by simp)
    · split at h
      · cases h
        simp
      · cases h
        simp

theorem pop_result_length (status : Int) (coerced : List Nat) (stk stk' : Stack)
    (r : DuktapeResult Value)
    (h : pop_result status coerced stk = some (stk', r)) :
    stk'.length = stk.length - 1 := by
  unfold pop_result at h
  rcases hg : get_result status coerced stk with _ | ⟨stk1, r1⟩
  · rw [hg] at h
    exact absurd h (by simp)
  · rw [hg] at h
    obtain ⟨h1, -⟩ := Prod.mk.injEq .. ▸ Option.some.injEq .. ▸ h
    have hlen := get_result_length status coerced stk stk1 r1 hg
    rw [← h1]
    simp [duk_pop, hlen]

/-! ## The claims -/

/-- Claim C1: every public `Context` operation (`eval_from`/`eval`, `call`,
`register`) leaves the VM evaluation stack at exactly the height it had on
entry, for every input and every VM execution outcome (`Ok` or `Err`),
whenever the operation returns. -/
theorem claim_C1_stack_height :
    (∀ (filename code : String) (oracle : Int × Slot) (coerced : List Nat)
        (stk stk' : Stack) (r : DuktapeResult Value),
        eval_from filename code oracle coerced stk = some (stk', r) →
        duk_get_top stk' = duk_get_top stk)
    ∧ (∀ (fn_name : String) (argSlots : List Slot) (propVal : Slot)
        (oracle : Int × Slot) (coerced : List Nat)
        (stk stk' : Stack) (r : DuktapeResult Value),
        call fn_name argSlots propVal oracle coerced stk = some (stk', r) →
        duk_get_top stk' = duk_get_top stk)
    ∧ (∀ (fn_name : String) (stk stk' : Stack),
        register fn_name stk = some stk' →
        duk_get_top stk' = duk_get_top stk) := by
  refine ⟨?_, ?_, ?_⟩
  · intro filename code oracle coerced stk stk' r h
    unfold eval_from duk_eval_raw at h
    dsimp only at h
    have hl := pop_result_length _ _ _ _ _ h
    simpa [duk_get_top] using hl
  · intro fn_name argSlots propVal oracle coerced stk stk' r h
    unfold call at h
    rcases hcs : cstring_new fn_name with _ | cs
    · rw [hcs] at h
      exact absurd h (by simp)
    · rw [hcs] at h
      dsimp only [duk_pcall] at h
      rcases hp : pop_result oracle.1 coerced
          (oracle.2 :: (argSlots.reverse ++ propVal :: Slot.object :: stk).drop
            (argSlots.length + 1)) with _ | ⟨stk4, res⟩
      · rw [hp] at h
        exact absurd h (by simp)
      · rw [hp] at h
        obtain ⟨h1, -⟩ := Prod.mk.injEq .. ▸ Option.some.injEq .. ▸ h
        have hl := pop_result_length _ _ _ _ _ hp
        simp [List.length_drop] at hl
        rw [← h1]
        simp [duk_get_top, duk_pop, hl]
        omega
  · intro fn_name stk stk' h
    unfold register at h
    rcases hcs : cstring_new fn_name with _ | cs
    · rw [hcs] at h
      exact absurd h (by simp)
    · rw [hcs] at h
      cases h
      rfl

/-- Witness for C1: each of the three operations applied at a concrete
input completes and preserves the height of the one-slot stack. -/
theorem claim_C1_witness :
    eval_from "f" "1" (0, .boolean true) [] [Slot.null] =
      some ([Slot.null], .ok (.Bool true))
    ∧ duk_get_top ([Slot.null] : Stack) = duk_get_top ([Slot.null] : Stack)
    ∧ call "id" [] .undefined (0, .boolean true) [] [Slot.null] =
        some ([Slot.null], .ok (.Bool true))
    ∧ duk_get_top ([Slot.null] : Stack) = duk_get_top ([Slot.null] : Stack)
    ∧ register "g" [Slot.null] = some [Slot.null]
    ∧ duk_get_top ([Slot.null] : Stack) = duk_get_top ([Slot.null] : Stack) :=
  ⟨rfl,
   claim_C1_stack_height.1 "f" "1" (0, .boolean true) [] [Slot.null]
     [Slot.null] (.ok (.Bool true)) rfl,
   rfl,
   claim_C1_stack_height.2.1 "id" [] .undefined (0, .boolean true) []
     [Slot.null] [Slot.null] (.ok (.Bool true)) rfl,
   rfl,
   claim_C1_stack_height.2.2 "g" [Slot.null] [Slot.null] rfl⟩

/-- Counterexample to claim C2: for the host error built from the message
"boom", the trampoline's result translation pushes nothing and returns the
generic `DUK_RET_ERROR` status — no VM-level error carrying the message is
raised. -/
theorem claim_C2_counterexample :
    (DuktapeError.from_str "boom").err_message = some "boom"
    ∧ translate_result (.error (DuktapeError.from_str "boom")) =
        ([], DUK_RET_ERROR)
    ∧ ¬ outcomeCarries
        (translate_result (.error (DuktapeError.from_str "boom"))) "boom" := by
  refine ⟨rfl, rfl, ?_⟩
  simp [outcomeCarries, translate_result, DuktapeError.from_str,
        DuktapeError.err_message]

/-- Claim C2 as amended: when a host callback returns an error that carries
a message, the trampoline reports the generic error status `DUK_RET_ERROR`
to the VM with nothing pushed; the guest observes a thrown generic error
that does not carry the message. -/
theorem claim_C2_amended (e : DuktapeError) (m : String)
    (h : e.err_message = some m) :
    translate_result (.error e) = ([], DUK_RET_ERROR) := by
  rcases e with ⟨msg, code⟩
  simp [DuktapeError.err_message] at h
  subst h
  rfl

/-- Witness for C2 (amended): the message-carrying error "boom" translates
to the generic error status. -/
theorem claim_C2_witness :
    translate_result (.error (DuktapeError.from_str "boom")) =
      ([], DUK_RET_ERROR) :=
  claim_C2_amended (DuktapeError.from_str "boom") "boom" rfl

/-- Counterexample to claim C3: for a host callback that panics, the
trampoline dispatch does not return any status to the VM — the
`abort_on_panic!` boundary aborts the process instead of converting the
panic into a VM-reported failure status. -/
theorem claim_C3_counterexample :
    (rust_duk_callback [] (fun _ => .panics "bug")).isReturnedStatus = false
    ∧ rust_duk_callback [] (fun _ => .panics "bug") =
        .abort "unexpected panic in code called from JavaScript" :=
  ⟨rfl, rfl⟩

/-- Claim C3 as amended: any uncaught host-side panic raised while the
trampoline invokes the host callback is intercepted at the fault boundary
and the process is aborted; it never unwinds through the VM's native call
frames, and no status is returned to the VM. -/
theorem claim_C3_amended (argSlots : List Slot) (f : List Value → HostBehavior)
    (args : List Value) (msg : String)
    (hdec : decodeArgs argSlots = .ok args) (hf : f args = .panics msg) :
    rust_duk_callback argSlots f =
      .abort "unexpected panic in code called from JavaScript" := by
  unfold rust_duk_callback
  rw [hdec]
  dsimp only
  rw [hf]

/-- Witness for C3 (amended): a panicking zero-argument callback aborts. -/
theorem claim_C3_witness :
    rust_duk_callback [] (fun _ => .panics "bug") =
      .abort "unexpected panic in code called from JavaScript" :=
  claim_C3_amended [] (fun _ => .panics "bug") [] "bug" rfl rfl

/-- Claim C4: if decoding any positional argument fails, the trampoline
dispatch aborts immediately with `DUK_RET_TYPE_ERROR` reported to the VM —
uniformly in the host function, which is therefore never invoked. -/
theorem claim_C4_type_error (argSlots : List Slot)
    (h : decodeArgs argSlots = .err) :
    ∀ f : List Value → HostBehavior,
      rust_duk_callback argSlots f = .ret [] DUK_RET_TYPE_ERROR := by
  intro f
  unfold rust_duk_callback
  rw [h]

/-- Witness for C4: a single argument slot holding the malformed byte
string `[0xFF]` fails to decode, and the dispatch reports a type error. -/
theorem claim_C4_witness :
    rust_duk_callback [Slot.string [255]] (fun _ => .returns (.ok .Undefined)) =
      .ret [] DUK_RET_TYPE_ERROR := by
  have hdec : decodeArgs [Slot.string [255]] = .err := by
    simp [decodeArgs, get, from_lstring, Cesu8.from_cesu8, Cesu8.decodeUnits,
          Cesu8.decodeOne, Except.map]
  exact claim_C4_type_error [Slot.string [255]] hdec _

/-- Claim C5: the trampoline translates a host callback result as follows —
`Ok(Undefined)` yields zero return values and nothing pushed; `Ok(v)` for
any other `v` pushes the encoding of `v` and reports one return value;
`Err` with a code and no message reports the negated code as the status. -/
theorem claim_C5_translate :
    translate_result (.ok .Undefined) = ([], 0)
    ∧ (∀ v : Value, v ≠ .Undefined →
        translate_result (.ok v) = ([push_old v], 1))
    ∧ (∀ e : DuktapeError, e.err_message = none →
        translate_result (.error e) = ([], -(e.err_code : Int))) := by
  refine ⟨rfl, ?_, ?_⟩
  · intro v hv
    cases v with
    | Undefined => exact absurd rfl hv
    | Null => rfl
    | Bool b => rfl
    | Number n => rfl
    | String str => rfl
  · intro e he
    rcases e with ⟨msg, code⟩
    simp [DuktapeError.err_message] at he
    subst he
    rfl

/-- Witness for C5: the three translation rules at concrete results. -/
theorem claim_C5_witness :
    translate_result (.ok .Undefined) = ([], 0)
    ∧ translate_result (.ok .Null) = ([push_old .Null], 1)
    ∧ translate_result (.error (DuktapeError.from_code 105)) =
        ([], -(105 : Int)) :=
  ⟨claim_C5_translate.1,
   claim_C5_translate.2.1 .Null (by simp),
   claim_C5_translate.2.2 (DuktapeError.from_code 105) rfl⟩

/-- Claim C6: pushing any `Value` onto the VM stack with `push_old` and
decoding it back with `get` yields an equal `Value` (host strings are
always valid Unicode text, so the string case is unconditional). -/
theorem claim_C6_round_trip (v : Value) : get (push_old v) = .value (.ok v) := by
  cases v with
  | Undefined => rfl
  | Null => rfl
  | Bool b => cases b <;> rfl
  | Number n => rfl
  | String str =>
    simp [get, push_old, from_lstring, Cesu8.from_cesu8_to_cesu8, Except.map]

/-- Claim C7: dropping a `Context` destroys the VM heap iff the `Context`
owns it — a `Context` from `new()` calls `duk_destroy_heap` on its heap on
drop, while a borrowed `Context` from `from_borrowed_mut_ptr` performs no
VM call at all. -/
theorem claim_C7_drop (p : Nat) (ctx : Context)
    (h : Context.new (some p) = .ok ctx) :
    ctx.dropCalls = [.destroy_heap p]
    ∧ (Context.from_borrowed_mut_ptr p).dropCalls = []
    ∧ ∀ c : Context, (c.dropCalls ≠ [] ↔ c.owned = true) := by
  refine ⟨?_, rfl, ?_⟩
  · cases h
    rfl
  · intro c
    rcases c with ⟨q, b⟩
    cases b <;> simp [Context.dropCalls]

/-- Witness for C7: the owned context over heap 7 destroys it on drop; the
borrowed one over the same heap does nothing. -/
theorem claim_C7_witness :
    (Context.mk 7 true).dropCalls = [.destroy_heap 7]
    ∧ (Context.from_borrowed_mut_ptr 7).dropCalls = []
    ∧ ∀ c : Context, (c.dropCalls ≠ [] ↔ c.owned = true) :=
  claim_C7_drop 7 ⟨7, true⟩ rfl

/-- Claim C8: `Context::new` returns the heap-creation error when the
allocator reports failure (a null heap pointer), with no partial `Context`
produced, and otherwise an owned `Context` wrapping the fresh heap. -/
theorem claim_C8_new :
    Context.new none = .error (DuktapeError.from_str "Could not create heap")
    ∧ ∀ p : Nat, Context.new (some p) = .ok ⟨p, true⟩ :=
  ⟨rfl, fun _ => rfl⟩

/-- Claim C9: for every stack slot whose runtime type tag is not one of the
five supported tags, `get` does not produce a `Value` at all — it hits the
fatal `panic!("Cannot convert duktape data type")`. -/
theorem claim_C9_get_fatal (slot : Slot) (h : slot.supported = false) :
    get slot = .fatal "Cannot convert duktape data type" := by
  cases slot <;> first | rfl | simp [Slot.supported] at h

/-- Witness for C9: an object slot is unsupported and `get` is fatal on
it. -/
theorem claim_C9_witness :
    Slot.object.supported = false ∧
      get Slot.object = .fatal "Cannot convert duktape data type" :=
  ⟨rfl, claim_C9_get_fatal Slot.object rfl⟩

/-- Claim C10: for every function name containing an interior NUL byte,
`call` and `register` panic at `CString::new(..).unwrap()` instead of
returning; for NUL-free names the conversion never fails. -/
theorem claim_C10_nul (name : String) :
    (name.data.contains (Char.ofNat 0) = true →
      (∀ argSlots propVal oracle coerced stk,
          call name argSlots propVal oracle coerced stk = none)
      ∧ (∀ stk, register name stk = none))
    ∧ (name.data.contains (Char.ofNat 0) = false →
        (cstring_new name).isSome = true) := by
  constructor
  · intro h
    have hmem : Char.ofNat 0 ∈ name.data := by simpa using h
    constructor
    · intro argSlots propVal oracle coerced stk
      simp [call, cstring_new, hmem]
    · intro stk
      simp [register, cstring_new, hmem]
  · intro h
    have hmem : Char.ofNat 0 ∉ name.data := by simpa using h
    simp [cstring_new, hmem]

/-- Witness for C10: a name with an embedded NUL makes both operations
panic, and a NUL-free name converts successfully. -/
theorem claim_C10_witness :
    (call "a\x00b" [] .undefined (0, .undefined) [] [] = none
      ∧ register "a\x00b" [] = none)
    ∧ (cstring_new "add").isSome = true := by
  refine ⟨⟨?_, ?_⟩, ?_⟩
  · exact ((claim_C10_nul "a\x00b").1 (by decide)).1 [] .undefined
      (0, .undefined) [] []
  · exact ((claim_C10_nul "a\x00b").1 (by decide)).2 []
  · exact (claim_C10_nul "add").2 (by decide)

end Duktape
